import Mathlib

/-!
Shallow embedding of the failover client-dispatch engine of
rocket-pool/node-manager-core, together with the context-preparation logic of
the standard RPC client bindings and the query manager's default concurrency
limit.  Definitions are transcribed from the Go source
(`node/services/function-runners.go`, `node/services/manager.go`, the two
`StandardRpcClient` binding files, and `NewServiceProviderWithCustomServices`).

The implementations of `isDisconnected`, `SetPrimaryReady`, `SetFallbackReady`
and `RecheckFailTimes` are declared in `manager.go` but their bodies are not
part of the sources at hand; those are modelled from the spec (sections 4.1,
4.2 and 4.3) and marked as such in their doc comments.

Go mutation of the manager's readiness state is rendered as explicit state
passing: the dispatch functions take a `ClientState` and return the final
state inside their result.  Wall-clock time is a `Nat` parameter `now`; a
single dispatch cycle (including the immediate recursive call after a primary
disconnect) is modelled as happening at one instant, since the recursion in
the source happens immediately after the failure timestamp is recorded.  The
unbounded recursion of `runFunction1` is modelled with an explicit `fuel`
parameter; `none` marks fuel exhaustion (potential divergence).
-/

/-- Events recorded by the model of a dispatch: the recheck pass and closure
executions against either client, in order. -/
inductive DispatchEvent where
  | recheck : DispatchEvent
  | callPrimary : DispatchEvent
  | callFallback : DispatchEvent
deriving DecidableEq, Repr

/-- A Go `error` value, carrying its message and its classification by the
disconnect classifier.  `none : Option Err` models a nil error. -/
structure Err where
  msg : String
  disconnect : Bool
deriving DecidableEq, Repr

/-- Modelled from the spec: the disconnect classifier `isDisconnected` (its
body is not among the sources; spec section 4.1 specifies it as a pure
predicate on the error value, true exactly for transport-level disconnect
errors).  Classification is carried on the error value itself. -/
def isDisconnected (e : Err) : Bool :=
  e.disconnect

/-- The readiness state owned by a client manager: per-role ready flag and
last-failure timestamp (spec section 3, `ReadinessState`). -/
structure ClientState where
  primaryReady : Bool
  fallbackReady : Bool
  primaryLastFail : Option Nat
  fallbackLastFail : Option Nat
deriving DecidableEq, Repr

/-- The immutable configuration of a client manager (`iClientManagerImpl` in
`manager.go`): the two client handles, whether a fallback is configured, the
client type name used in messages, and the reconnect delay. -/
structure ClientManager (C : Type) where
  primaryClient : C
  fallbackClient : C
  fallbackEnabled : Bool
  clientTypeName : String
  reconnectDelay : Nat

/-- Modelled from the spec: `SetPrimaryReady` — sets the primary ready flag;
marking the primary not-ready records the failure timestamp (spec section 4.2
step 2: "mark primary readiness false, record failure timestamp"). -/
def setPrimaryReady (ready : Bool) (now : Nat) (st : ClientState) : ClientState :=
  { st with
    primaryReady := ready
    primaryLastFail := if ready then st.primaryLastFail else some now }

/-- Modelled from the spec: `SetFallbackReady` — sets the fallback ready flag;
marking the fallback not-ready records the failure timestamp. -/
def setFallbackReady (ready : Bool) (now : Nat) (st : ClientState) : ClientState :=
  { st with
    fallbackReady := ready
    fallbackLastFail := if ready then st.fallbackLastFail else some now }

/-- Modelled from the spec: the per-role recheck rule of `RecheckFailTimes`
(spec section 4.3): a role already ready stays ready; a role not ready becomes
ready again exactly when `now - lastFailureTime >= reconnectDelay`. -/
def recheckRole (ready : Bool) (lastFail : Option Nat) (delay now : Nat) : Bool :=
  if ready then true
  else
    match lastFail with
    | none => false
    | some t => if delay ≤ now - t then true else false

/-- Modelled from the spec: `RecheckFailTimes`, applied to both roles (spec
section 4.3).  Timestamps are left untouched; only ready flags may flip from
false to true. -/
def recheckFailTimes {C : Type} (m : ClientManager C) (now : Nat) (st : ClientState) :
    ClientState :=
  { st with
    primaryReady := recheckRole st.primaryReady st.primaryLastFail m.reconnectDelay now
    fallbackReady := recheckRole st.fallbackReady st.fallbackLastFail m.reconnectDelay now }

/-- The outcome of one dispatch: the returned value and error, the final
readiness state, and the trace of events in order. -/
structure DispatchResult (R : Type) where
  result : R
  error : Option Err
  state : ClientState
  trace : List DispatchEvent
deriving Repr, DecidableEq

/-- Transcription of `runFunction1` from `node/services/function-runners.go`.
`default` models Go's `var blank ReturnType` zero value.  `fuel` bounds the
recursion depth of the source's self-call after a primary disconnect; `none`
means the fuel ran out. -/
def runFunction1 {C R : Type} [Inhabited R] (fuel : Nat) (m : ClientManager C)
    (st : ClientState) (now : Nat) (function : C → R × Option Err) :
    Option (DispatchResult R) :=
  match fuel with
  | 0 => none
  | Nat.succ fuel =>
    -- If there's no fallback, just run the function on the primary
    if !m.fallbackEnabled then
      let out := function m.primaryClient
      some ⟨out.1, out.2, st, [DispatchEvent.callPrimary]⟩
    else
      -- Check the clients for recovery
      let st := recheckFailTimes m now st
      -- Check if we can use the primary
      if st.primaryReady then
        let out := function m.primaryClient
        match out.2 with
        | none => some ⟨out.1, none, st, [DispatchEvent.recheck, DispatchEvent.callPrimary]⟩
        | some err =>
          if !isDisconnected err then
            some ⟨default, some err, st, [DispatchEvent.recheck, DispatchEvent.callPrimary]⟩
          else
            -- Mark the primary down and recurse into the dispatch from the top
            let st := setPrimaryReady false now st
            match runFunction1 fuel m st now function with
            | none => none
            | some r =>
              some { r with trace := DispatchEvent.recheck :: DispatchEvent.callPrimary :: r.trace }
      else
        -- Check if we can use the fallback
        if st.fallbackReady then
          let out := function m.fallbackClient
          match out.2 with
          | none => some ⟨out.1, none, st, [DispatchEvent.recheck, DispatchEvent.callFallback]⟩
          | some err =>
            if !isDisconnected err then
              some ⟨default, some err, st, [DispatchEvent.recheck, DispatchEvent.callFallback]⟩
            else
              let st := setFallbackReady false now st
              some ⟨default, some ⟨"all " ++ m.clientTypeName ++ "s failed", false⟩, st,
                [DispatchEvent.recheck, DispatchEvent.callFallback]⟩
        else
          -- If neither client is ready, just run the primary
          let out := function m.primaryClient
          some ⟨out.1, out.2, st, [DispatchEvent.recheck, DispatchEvent.callPrimary]⟩

/-- Transcription of `runFunction0`: wraps the 0-output closure into a 1-output
closure returning a synthetic nil value (modelled as `Unit`), dispatches it
through `runFunction1`, and discards the value. -/
def runFunction0 {C : Type} (fuel : Nat) (m : ClientManager C) (st : ClientState)
    (now : Nat) (function : C → Option Err) :
    Option (Option Err × ClientState × List DispatchEvent) :=
  (runFunction1 fuel m st now (fun client => ((), function client))).map
    (fun r => (r.error, r.state, r.trace))

/-- The synthetic tuple type `out` used by `runFunction2` to pack two outputs
into one.  Its `default` is the pair of the components' zero values, matching
the Go zero value of the struct. -/
structure Out2 (R1 R2 : Type) where
  arg1 : R1
  arg2 : R2
deriving Repr

instance {R1 R2 : Type} [Inhabited R1] [Inhabited R2] : Inhabited (Out2 R1 R2) :=
  ⟨⟨default, default⟩⟩

/-- Transcription of `runFunction2`: packs the 2-output closure's values into
the synthetic tuple, dispatches through `runFunction1`, and unpacks. -/
def runFunction2 {C R1 R2 : Type} [Inhabited R1] [Inhabited R2] (fuel : Nat)
    (m : ClientManager C) (st : ClientState) (now : Nat)
    (function : C → R1 × R2 × Option Err) :
    Option ((R1 × R2 × Option Err) × ClientState × List DispatchEvent) :=
  (runFunction1 fuel m st now (fun client =>
      let out := function client
      (Out2.mk out.1 out.2.1, out.2.2))).map
    (fun r => ((r.result.arg1, r.result.arg2, r.error), r.state, r.trace))

/-- A Go `context.Context`, reduced to the one observable the claims are
about: its deadline (an absolute time), if any. -/
structure RpcCtx where
  deadline : Option Nat
deriving DecidableEq, Repr

/-- Deadline semantics of Go's `context.WithTimeout` at time `now`: the child
context's deadline is `now + timeout`, or the parent's deadline if that is
earlier. -/
def withTimeout (now timeout : Nat) (ctx : RpcCtx) : RpcCtx :=
  match ctx.deadline with
  | none => ⟨some (now + timeout)⟩
  | some d => ⟨some (min d (now + timeout))⟩

/-- Transcription of `StandardRpcClient.prepareContext` (options-based
binding): replace a nil context by a background one, pass a context through
untouched when it already carries a deadline, and otherwise add the default
timeout.  A nil context is `none`. -/
def prepareContext (now : Nat) (ctx : Option RpcCtx) (defaultTimeout : Nat) : RpcCtx :=
  let ctx :=
    match ctx with
    | none => (⟨none⟩ : RpcCtx)
    | some c => c
  if ctx.deadline.isSome then ctx
  else withTimeout now defaultTimeout ctx

/-- Transcription of `logRequestAndCreateContext` (the other
`StandardRpcClient` binding): always wraps the context with
`context.WithTimeout` for the given tier timeout; logging and HTTP tracing
have no effect on the deadline and are omitted. -/
def logRequestAndCreateContext (now : Nat) (ctx : RpcCtx) (timeout : Nat) : RpcCtx :=
  withTimeout now timeout ctx

/-- The method-to-tier table of the `prepareContext`-based `StandardRpcClient`:
each method name paired with whether it uses the slow timeout
(`defaultSlowTimeout`) rather than the fast one, transcribed call by call. -/
def prepareContextMethodTiers : List (String × Bool) :=
  [("CodeAt", false), ("CallContract", false), ("HeaderByHash", false),
   ("HeaderByNumber", false), ("PendingCodeAt", false), ("PendingNonceAt", false),
   ("SuggestGasPrice", false), ("SuggestGasTipCap", false), ("EstimateGas", false),
   ("SendTransaction", false), ("FilterLogs", true), ("SubscribeFilterLogs", false),
   ("TransactionReceipt", false), ("BlockNumber", false), ("BalanceAt", false),
   ("TransactionByHash", false), ("NonceAt", false), ("SyncProgress", false),
   ("ChainID", false)]

/-- The method-to-tier table of the `logRequestAndCreateContext`-based
`StandardRpcClient`: each method name paired with whether it uses the slow
timeout (`m.slowTimeout`), transcribed call by call. -/
def logCreateMethodTiers : List (String × Bool) :=
  [("CodeAt", false), ("CallContract", false), ("HeaderByHash", false),
   ("HeaderByNumber", false), ("PendingCodeAt", false), ("PendingNonceAt", false),
   ("SuggestGasPrice", false), ("SuggestGasTipCap", false), ("EstimateGas", false),
   ("SendTransaction", false), ("FilterLogs", true), ("SubscribeFilterLogs", false),
   ("TransactionReceipt", false), ("BlockNumber", false), ("BalanceAt", false),
   ("TransactionByHash", false), ("NonceAt", false), ("SyncProgress", false),
   ("ChainID", false)]

/-- Transcription of the query manager's default concurrent call limit from
`NewServiceProviderWithCustomServices`: half the CPU count, raised to 1 if the
division yields less than 1. -/
def defaultConcurrentCallLimit (numCPU : Nat) : Nat :=
  let concurrentCallLimit := numCPU / 2
  if concurrentCallLimit < 1 then 1 else concurrentCallLimit

/-- Number of closure executions recorded in a trace. -/
def callCount (trace : List DispatchEvent) : Nat :=
  (trace.filter (fun e =>
    match e with
    | DispatchEvent.recheck => false
    | DispatchEvent.callPrimary => true
    | DispatchEvent.callFallback => true)).length

/-! Helper lemmas about the readiness state machine. -/

theorem recheckRole_of_true (lastFail : Option Nat) (delay now : Nat) :
    recheckRole true lastFail delay now = true := rfl

theorem recheckFailTimes_primaryReady_of_true {C : Type} (m : ClientManager C) (now : Nat)
    (st : ClientState) (h : st.primaryReady = true) :
    (recheckFailTimes m now st).primaryReady = true := by
  simp [recheckFailTimes, recheckRole, h]

theorem recheckFailTimes_fallbackReady_of_true {C : Type} (m : ClientManager C) (now : Nat)
    (st : ClientState) (h : st.fallbackReady = true) :
    (recheckFailTimes m now st).fallbackReady = true := by
  simp [recheckFailTimes, recheckRole, h]

theorem setPrimaryReady_fallbackReady (b : Bool) (now : Nat) (st : ClientState) :
    (setPrimaryReady b now st).fallbackReady = st.fallbackReady := rfl

theorem recheck_primary_stays_down {C : Type} (m : ClientManager C) (now : Nat)
    (st : ClientState) (hd : 0 < m.reconnectDelay) :
    (recheckFailTimes m now (setPrimaryReady false now st)).primaryReady = false := by
  simp [recheckFailTimes, setPrimaryReady, recheckRole]
  omega

/-- Claim C1: with a fallback configured, the primary marked ready, a
disconnect-classified error from the primary attempt and a successful fallback
attempt from a ready fallback, dispatch returns the fallback's result with no
error, and the primary readiness flag is false afterward. -/
theorem runFunction1_primary_disconnect_fallback_success {C R : Type} [Inhabited R]
    (fuel : Nat) (m : ClientManager C) (st : ClientState) (now : Nat)
    (function : C → R × Option Err) (rp rf : R) (ep : Err)
    (hfe : m.fallbackEnabled = true)
    (hd : 0 < m.reconnectDelay)
    (hp : st.primaryReady = true)
    (hfb : st.fallbackReady = true)
    (hfp : function m.primaryClient = (rp, some ep))
    (hdis : isDisconnected ep = true)
    (hff : function m.fallbackClient = (rf, none)) :
    runFunction1 (fuel + 2) m st now function =
      some ⟨rf, none,
        recheckFailTimes m now (setPrimaryReady false now (recheckFailTimes m now st)),
        [DispatchEvent.recheck, DispatchEvent.callPrimary,
         DispatchEvent.recheck, DispatchEvent.callFallback]⟩ ∧
    (recheckFailTimes m now (setPrimaryReady false now (recheckFailTimes m now st))).primaryReady
      = false := by
  have hp1 := recheckFailTimes_primaryReady_of_true m now st hp
  have h2 := recheck_primary_stays_down m now (recheckFailTimes m now st) hd
  have h3 : (recheckFailTimes m now
      (setPrimaryReady false now (recheckFailTimes m now st))).fallbackReady = true := by
    apply recheckFailTimes_fallbackReady_of_true
    rw [setPrimaryReady_fallbackReady]
    exact recheckFailTimes_fallbackReady_of_true m now st hfb
  refine ⟨?_, h2⟩
  simp [runFunction1, hfe, hp1, hfp, hdis, h2, h3, hff]

/-- Claim C10: the query manager's default concurrent call limit is half the
CPU count rounded down, floored at 1. -/
theorem defaultConcurrentCallLimit_eq (numCPU : Nat) (h : 1 ≤ numCPU) :
    defaultConcurrentCallLimit numCPU = max (numCPU / 2) 1 := by
  have hx : defaultConcurrentCallLimit numCPU =
      if numCPU / 2 < 1 then 1 else numCPU / 2 := rfl
  rw [hx]
  split <;> omega

/-- Witness for claim C10's theorem at a concrete CPU count. -/
theorem defaultConcurrentCallLimit_eq_witness :
    defaultConcurrentCallLimit 7 = max (7 / 2) 1 :=
  defaultConcurrentCallLimit_eq 7 (by decide)

/-- Witness for claim C1's theorem: a concrete manager whose primary
disconnects and whose fallback answers 42. -/
theorem runFunction1_primary_disconnect_fallback_success_witness :
    runFunction1 2 (⟨0, 1, true, "Execution client", 10⟩ : ClientManager Nat)
        ⟨true, true, none, none⟩ 0
        (fun c => if c = 0 then ((0 : Nat), some ⟨"connection reset", true⟩) else (42, none)) =
      some ⟨42, none,
        recheckFailTimes ⟨0, 1, true, "Execution client", 10⟩ 0
          (setPrimaryReady false 0
            (recheckFailTimes ⟨0, 1, true, "Execution client", 10⟩ 0 ⟨true, true, none, none⟩)),
        [DispatchEvent.recheck, DispatchEvent.callPrimary,
         DispatchEvent.recheck, DispatchEvent.callFallback]⟩ ∧
    (recheckFailTimes (⟨0, 1, true, "Execution client", 10⟩ : ClientManager Nat) 0
      (setPrimaryReady false 0
        (recheckFailTimes ⟨0, 1, true, "Execution client", 10⟩ 0
          ⟨true, true, none, none⟩))).primaryReady = false :=
  runFunction1_primary_disconnect_fallback_success 0 _ _ 0 _ 0 42
    ⟨"connection reset", true⟩ rfl (by decide) rfl rfl rfl rfl rfl

/-- Claim C2: with a fallback configured and both attempts of one cycle
failing with disconnect-classified errors, dispatch returns the synthesized
terminal error whose message is "all <clientTypeName>s failed", and both
readiness flags are false afterward. -/
theorem runFunction1_both_disconnect_all_failed {C R : Type} [Inhabited R]
    (fuel : Nat) (m : ClientManager C) (st : ClientState) (now : Nat)
    (function : C → R × Option Err) (rp rf : R) (ep ef : Err)
    (hfe : m.fallbackEnabled = true)
    (hd : 0 < m.reconnectDelay)
    (hp : st.primaryReady = true)
    (hfb : st.fallbackReady = true)
    (hfp : function m.primaryClient = (rp, some ep))
    (hdisp : isDisconnected ep = true)
    (hff : function m.fallbackClient = (rf, some ef))
    (hdisf : isDisconnected ef = true) :
    runFunction1 (fuel + 2) m st now function =
      some ⟨default, some ⟨"all " ++ m.clientTypeName ++ "s failed", false⟩,
        setFallbackReady false now
          (recheckFailTimes m now (setPrimaryReady false now (recheckFailTimes m now st))),
        [DispatchEvent.recheck, DispatchEvent.callPrimary,
         DispatchEvent.recheck, DispatchEvent.callFallback]⟩ ∧
    (setFallbackReady false now
      (recheckFailTimes m now
        (setPrimaryReady false now (recheckFailTimes m now st)))).primaryReady = false ∧
    (setFallbackReady false now
      (recheckFailTimes m now
        (setPrimaryReady false now (recheckFailTimes m now st)))).fallbackReady = false := by
  have hp1 := recheckFailTimes_primaryReady_of_true m now st hp
  have h2 := recheck_primary_stays_down m now (recheckFailTimes m now st) hd
  have h3 : (recheckFailTimes m now
      (setPrimaryReady false now (recheckFailTimes m now st))).fallbackReady = true := by
    apply recheckFailTimes_fallbackReady_of_true
    rw [setPrimaryReady_fallbackReady]
    exact recheckFailTimes_fallbackReady_of_true m now st hfb
  refine ⟨?_, ?_, ?_⟩
  · simp [runFunction1, hfe, hp1, hfp, hdisp, h2, h3, hff, hdisf]
  · simpa [setFallbackReady] using h2
  · simp [setFallbackReady]

/-- Witness for claim C2's theorem: a concrete manager where both endpoints
answer with disconnect errors. -/
theorem runFunction1_both_disconnect_all_failed_witness :
    runFunction1 2 (⟨0, 1, true, "Execution client", 10⟩ : ClientManager Nat)
        ⟨true, true, none, none⟩ 0
        (fun c => if c = 0 then ((0 : Nat), some (⟨"connection reset", true⟩ : Err))
                  else (0, some (⟨"connection refused", true⟩ : Err))) =
      some ⟨default, some ⟨"all Execution clients failed", false⟩,
        setFallbackReady false 0
          (recheckFailTimes ⟨0, 1, true, "Execution client", 10⟩ 0
            (setPrimaryReady false 0
              (recheckFailTimes ⟨0, 1, true, "Execution client", 10⟩ 0
                ⟨true, true, none, none⟩))),
        [DispatchEvent.recheck, DispatchEvent.callPrimary,
         DispatchEvent.recheck, DispatchEvent.callFallback]⟩ ∧
    (setFallbackReady false 0
      (recheckFailTimes (⟨0, 1, true, "Execution client", 10⟩ : ClientManager Nat) 0
        (setPrimaryReady false 0
          (recheckFailTimes ⟨0, 1, true, "Execution client", 10⟩ 0
            ⟨true, true, none, none⟩)))).primaryReady = false ∧
    (setFallbackReady false 0
      (recheckFailTimes (⟨0, 1, true, "Execution client", 10⟩ : ClientManager Nat) 0
        (setPrimaryReady false 0
          (recheckFailTimes ⟨0, 1, true, "Execution client", 10⟩ 0
            ⟨true, true, none, none⟩)))).fallbackReady = false :=
  runFunction1_both_disconnect_all_failed 0 _ _ 0 _ 0 0
    ⟨"connection reset", true⟩ ⟨"connection refused", true⟩
    rfl (by decide) rfl rfl rfl rfl rfl rfl

/-- Counterexample for claim C3 as stated: with the primary ready and the
closure answering the application error together with result 1, dispatch
returns result 0 (the zero value), not the closure's result 1; moreover the
recheck pass flips the fallback readiness flag from false to true, so a
readiness flag does change. -/
theorem runFunction1_app_error_claim_cex :
    (runFunction1 1 (⟨0, 1, true, "Execution client", 10⟩ : ClientManager Nat)
        ⟨true, false, none, some 0⟩ 10
        (fun c => if c = 0 then ((1 : Nat), some ⟨"bad request", false⟩)
                  else (42, none))).map
      (fun r => (r.result, r.state.fallbackReady)) = some (0, true) ∧
    ((fun c => if c = 0 then ((1 : Nat), some (⟨"bad request", false⟩ : Err))
               else (42, none)) 0).1 = 1 ∧
    (⟨true, false, none, some 0⟩ : ClientState).fallbackReady = false := by
  refine ⟨rfl, rfl, rfl⟩

/-- Claim C3 as amended: with a fallback configured, the primary marked ready
and the primary attempt answering an error not classified as a disconnect,
dispatch immediately returns the return type's zero value together with that
error verbatim; the fallback is never invoked and the readiness flags change
only by the optimistic recheck pass at dispatch start. -/
theorem runFunction1_app_error_no_fallback {C R : Type} [Inhabited R]
    (fuel : Nat) (m : ClientManager C) (st : ClientState) (now : Nat)
    (function : C → R × Option Err) (rp : R) (e : Err)
    (hfe : m.fallbackEnabled = true)
    (hp : st.primaryReady = true)
    (hfp : function m.primaryClient = (rp, some e))
    (hdis : isDisconnected e = false) :
    runFunction1 (fuel + 1) m st now function =
      some ⟨default, some e, recheckFailTimes m now st,
        [DispatchEvent.recheck, DispatchEvent.callPrimary]⟩ := by
  have hp1 := recheckFailTimes_primaryReady_of_true m now st hp
  simp [runFunction1, hfe, hp1, hfp, hdis]

/-- Witness for claim C3's amended theorem at the counterexample's input. -/
theorem runFunction1_app_error_no_fallback_witness :
    runFunction1 1 (⟨0, 1, true, "Execution client", 10⟩ : ClientManager Nat)
        ⟨true, false, none, some 0⟩ 10
        (fun c => if c = 0 then ((1 : Nat), some ⟨"bad request", false⟩)
                  else (42, none)) =
      some ⟨default, some ⟨"bad request", false⟩,
        recheckFailTimes ⟨0, 1, true, "Execution client", 10⟩ 10
          ⟨true, false, none, some 0⟩,
        [DispatchEvent.recheck, DispatchEvent.callPrimary]⟩ :=
  runFunction1_app_error_no_fallback 0 _ _ 10 _ 1 ⟨"bad request", false⟩ rfl rfl rfl rfl

/-- Claim C4: with no fallback configured, dispatch executes the closure once
against the primary and returns its result and error verbatim, with the
readiness state untouched, no recheck pass and no fallback involvement. -/
theorem runFunction1_no_fallback_passthrough {C R : Type} [Inhabited R]
    (fuel : Nat) (m : ClientManager C) (st : ClientState) (now : Nat)
    (function : C → R × Option Err)
    (hfe : m.fallbackEnabled = false) :
    runFunction1 (fuel + 1) m st now function =
      some ⟨(function m.primaryClient).1, (function m.primaryClient).2, st,
        [DispatchEvent.callPrimary]⟩ := by
  simp [runFunction1, hfe]

/-- Witness for claim C4's theorem: a single-endpoint manager whose closure
answers 7 with no error; the state is returned untouched. -/
theorem runFunction1_no_fallback_passthrough_witness :
    runFunction1 1 (⟨0, 1, false, "Execution client", 10⟩ : ClientManager Nat)
        ⟨true, true, none, none⟩ 0 (fun _ => ((7 : Nat), none)) =
      some ⟨7, none, ⟨true, true, none, none⟩, [DispatchEvent.callPrimary]⟩ :=
  runFunction1_no_fallback_passthrough 0 _ _ 0 _ rfl

theorem recheckFailTimes_eq_self_of_neither_ready {C : Type} (m : ClientManager C)
    (now : Nat) (st : ClientState)
    (hp : (recheckFailTimes m now st).primaryReady = false)
    (hf : (recheckFailTimes m now st).fallbackReady = false) :
    recheckFailTimes m now st = st := by
  cases st with
  | mk a b c d =>
    simp only [recheckFailTimes] at hp hf ⊢
    cases a
    · cases b
      · simp_all
      · simp [recheckRole] at hf
    · simp [recheckRole] at hp

/-- Claim C5: with a fallback configured and neither role ready after the
recheck pass, dispatch executes the closure exactly once against the primary
and returns its result and error verbatim, with no readiness-state update and
no recursion. -/
theorem runFunction1_neither_ready_forced_primary {C R : Type} [Inhabited R]
    (fuel : Nat) (m : ClientManager C) (st : ClientState) (now : Nat)
    (function : C → R × Option Err)
    (hfe : m.fallbackEnabled = true)
    (hp : (recheckFailTimes m now st).primaryReady = false)
    (hf : (recheckFailTimes m now st).fallbackReady = false) :
    runFunction1 (fuel + 1) m st now function =
      some ⟨(function m.primaryClient).1, (function m.primaryClient).2, st,
        [DispatchEvent.recheck, DispatchEvent.callPrimary]⟩ ∧
    recheckFailTimes m now st = st := by
  have he := recheckFailTimes_eq_self_of_neither_ready m now st hp hf
  constructor
  · rw [he] at hp hf
    simp [runFunction1, hfe, he, hp, hf]
  · exact he

/-- Witness for claim C5's theorem: neither role ready, reconnect delay not
yet elapsed; the primary is forced and its outcome returned verbatim. -/
theorem runFunction1_neither_ready_forced_primary_witness :
    runFunction1 1 (⟨0, 1, true, "Execution client", 10⟩ : ClientManager Nat)
        ⟨false, false, some 5, some 5⟩ 6
        (fun c => if c = 0 then ((9 : Nat), some (⟨"connection reset", true⟩ : Err))
                  else (42, none)) =
      some ⟨9, some ⟨"connection reset", true⟩, ⟨false, false, some 5, some 5⟩,
        [DispatchEvent.recheck, DispatchEvent.callPrimary]⟩ ∧
    recheckFailTimes (⟨0, 1, true, "Execution client", 10⟩ : ClientManager Nat) 6
      ⟨false, false, some 5, some 5⟩ = ⟨false, false, some 5, some 5⟩ :=
  runFunction1_neither_ready_forced_primary 0 _ _ 6 _ rfl rfl rfl

/-- Claim C6: the 0-output and 2-output dispatch forms are the 1-output form
composed with tuple wrapping and unwrapping — `runFunction0` returns exactly
the error (and state and trace) `runFunction1` produces for the nil-returning
adapter of its closure, and `runFunction2` returns exactly the unpacked
components (and state and trace) `runFunction1` produces for the
tuple-packing adapter of its closure, for every manager, state, time, fuel
and closure. -/
theorem runFunction_arity_adapters {C R1 R2 : Type} [Inhabited R1] [Inhabited R2]
    (fuel : Nat) (m : ClientManager C) (st : ClientState) (now : Nat)
    (f0 : C → Option Err) (f2 : C → R1 × R2 × Option Err) :
    runFunction0 fuel m st now f0 =
      (runFunction1 fuel m st now (fun client => ((), f0 client))).map
        (fun r => (r.error, r.state, r.trace)) ∧
    runFunction2 fuel m st now f2 =
      (runFunction1 fuel m st now
        (fun client => (Out2.mk (f2 client).1 (f2 client).2.1, (f2 client).2.2))).map
        (fun r => ((r.result.arg1, r.result.arg2, r.error), r.state, r.trace)) :=
  ⟨rfl, rfl⟩

/-- Counterexample for claim C7 as stated: on a manager with no fallback
configured, a dispatch runs the closure against the primary without ever
invoking the recheck pass — its trace contains no recheck event at all. -/
theorem runFunction1_no_fallback_skips_recheck_cex :
    runFunction1 1 (⟨0, 1, false, "Execution client", 10⟩ : ClientManager Nat)
        ⟨true, true, none, none⟩ 0 (fun _ => ((7 : Nat), none)) =
      some ⟨7, none, ⟨true, true, none, none⟩, [DispatchEvent.callPrimary]⟩ ∧
    DispatchEvent.recheck ∉ [DispatchEvent.callPrimary] :=
  ⟨rfl, by decide⟩

/-- Claim C7 as amended: on every dispatch against a manager with a fallback
configured, `RecheckFailTimes` is invoked first, before any client is selected
or the closure executed; on a manager with no fallback configured it is not
invoked at all. -/
theorem runFunction1_recheck_precedes_calls {C R : Type} [Inhabited R]
    (fuel : Nat) (m : ClientManager C) (st : ClientState) (now : Nat)
    (function : C → R × Option Err) (r : DispatchResult R)
    (h : runFunction1 fuel m st now function = some r) :
    (m.fallbackEnabled = true → r.trace.head? = some DispatchEvent.recheck) ∧
    (m.fallbackEnabled = false → DispatchEvent.recheck ∉ r.trace) := by
  cases fuel with
  | zero => exact Option.noConfusion h
  | succ fuel =>
    constructor
    · intro hfe
      simp only [runFunction1, hfe, Bool.not_true] at h
      rw [if_neg (by simp)] at h
      repeat' split at h
      all_goals first
        | exact Option.noConfusion h
        | (obtain rfl := Option.some.inj h; rfl)
    · intro hfe
      simp only [runFunction1, hfe, Bool.not_false] at h
      rw [if_pos trivial] at h
      obtain rfl := Option.some.inj h
      simp

/-- Witness for claim C7's amended theorem, on both a fallback-configured and
a fallback-free dispatch. -/
theorem runFunction1_recheck_precedes_calls_witness :
    (([DispatchEvent.recheck, DispatchEvent.callPrimary] : List DispatchEvent).head? =
      some DispatchEvent.recheck) ∧
    DispatchEvent.recheck ∉ [DispatchEvent.callPrimary] :=
  ⟨(runFunction1_recheck_precedes_calls 1 (⟨0, 1, true, "Execution client", 10⟩ :
        ClientManager Nat) ⟨true, true, none, none⟩ 0 (fun _ => ((7 : Nat), none))
      ⟨7, none, ⟨true, true, none, none⟩,
        [DispatchEvent.recheck, DispatchEvent.callPrimary]⟩ rfl).1 rfl,
   (runFunction1_recheck_precedes_calls 1 (⟨0, 1, false, "Execution client", 10⟩ :
        ClientManager Nat) ⟨true, true, none, none⟩ 0 (fun _ => ((7 : Nat), none))
      ⟨7, none, ⟨true, true, none, none⟩, [DispatchEvent.callPrimary]⟩ rfl).2 rfl⟩

/-- Counterexample for claim C8 as stated: the
`logRequestAndCreateContext`-based binding wraps every call in
`context.WithTimeout`, so a caller-supplied deadline of 100 is replaced by the
tier deadline 5 (at time 0 with a 5-unit fast timeout) instead of being passed
through. -/
theorem logRequestAndCreateContext_overrides_deadline_cex :
    (RpcCtx.mk (some 100)).deadline.isSome = true ∧
    logRequestAndCreateContext 0 ⟨some 100⟩ 5 = ⟨some 5⟩ ∧
    logRequestAndCreateContext 0 ⟨some 100⟩ 5 ≠ ⟨some 100⟩ := by
  refine ⟨rfl, rfl, by decide⟩

/-- Claim C8 as amended: the `prepareContext`-based binding passes a context
with a deadline through untouched and otherwise applies the method's default
timeout tier; the `logRequestAndCreateContext`-based binding always wraps with
the tier timeout, which keeps a caller deadline only when it is not later than
the tier deadline and applies the tier default when no deadline exists; in
both bindings every method uses the fast tier except FilterLogs, which uses
the slow tier. -/
theorem prepareContext_deadline_policy :
    (∀ (now t : Nat) (c : RpcCtx), c.deadline.isSome = true →
      prepareContext now (some c) t = c) ∧
    (∀ (now t : Nat), prepareContext now (some ⟨none⟩) t = ⟨some (now + t)⟩) ∧
    (∀ (now t d : Nat), d ≤ now + t →
      logRequestAndCreateContext now ⟨some d⟩ t = ⟨some d⟩) ∧
    (∀ (now t : Nat), logRequestAndCreateContext now ⟨none⟩ t = ⟨some (now + t)⟩) ∧
    (∀ p ∈ prepareContextMethodTiers, p.2 = (p.1 == "FilterLogs")) ∧
    (∀ p ∈ logCreateMethodTiers, p.2 = (p.1 == "FilterLogs")) := by
  refine ⟨?_, ?_, ?_, ?_, ?_, ?_⟩
  · intro now t c hc
    simp [prepareContext, hc]
  · intro now t
    simp [prepareContext, withTimeout]
  · intro now t d hd
    simp [logRequestAndCreateContext, withTimeout, Nat.min_eq_left hd]
  · intro now t
    simp [logRequestAndCreateContext, withTimeout]
  · decide
  · decide

/-- Witness for claim C8's amended theorem: a deadline of 7 passes through the
`prepareContext`-based binding untouched; an early deadline of 3 survives the
`logRequestAndCreateContext`-based binding's 5-unit wrap. -/
theorem prepareContext_deadline_policy_witness :
    prepareContext 0 (some ⟨some 7⟩) 5 = ⟨some 7⟩ ∧
    logRequestAndCreateContext 0 ⟨some 3⟩ 5 = ⟨some 3⟩ :=
  ⟨prepareContext_deadline_policy.1 0 5 ⟨some 7⟩ rfl,
   prepareContext_deadline_policy.2.2.1 0 5 3 (by decide)⟩

/-- Claim C9: in the sequential model, whenever the reconnect delay exceeds
the time elapsed since the failure recorded by the recursive call (here zero,
as the recursion is immediate), dispatch terminates within recursion depth one
-- fuel 2 suffices -- and executes the closure at most twice. -/
theorem runFunction1_terminates_two_calls {C R : Type} [Inhabited R]
    (m : ClientManager C) (st : ClientState) (now : Nat)
    (function : C → R × Option Err)
    (hd : 0 < m.reconnectDelay) :
    ∃ r, runFunction1 2 m st now function = some r ∧ callCount r.trace ≤ 2 := by
  by_cases hfe : m.fallbackEnabled = true
  · by_cases hp : (recheckFailTimes m now st).primaryReady = true
    · cases hout : (function m.primaryClient).2 with
      | none =>
        simp [runFunction1, callCount, hfe, hp, hout]
      | some e =>
        by_cases hdis : isDisconnected e = true
        · have h2 := recheck_primary_stays_down m now (recheckFailTimes m now st) hd
          by_cases hfb :
              (recheckFailTimes m now
                (setPrimaryReady false now (recheckFailTimes m now st))).fallbackReady = true
          · cases hout2 : (function m.fallbackClient).2 with
            | none =>
              simp [runFunction1, callCount, hfe, hp, hout, hdis, h2, hfb, hout2]
            | some e2 =>
              by_cases hdis2 : isDisconnected e2 = true
              · simp [runFunction1, callCount, hfe, hp, hout, hdis, h2, hfb, hout2, hdis2]
              · simp [runFunction1, callCount, hfe, hp, hout, hdis, h2, hfb, hout2, hdis2]
          · simp [runFunction1, callCount, hfe, hp, hout, hdis, h2, hfb]
        · simp [runFunction1, callCount, hfe, hp, hout, hdis]
    · by_cases hfb : (recheckFailTimes m now st).fallbackReady = true
      · cases hout2 : (function m.fallbackClient).2 with
        | none =>
          simp [runFunction1, callCount, hfe, hp, hfb, hout2]
        | some e2 =>
          by_cases hdis2 : isDisconnected e2 = true
          · simp [runFunction1, callCount, hfe, hp, hfb, hout2, hdis2]
          · simp [runFunction1, callCount, hfe, hp, hfb, hout2, hdis2]
      · simp [runFunction1, callCount, hfe, hp, hfb]
  · simp [runFunction1, callCount, hfe]

/-- Witness for claim C9's theorem: a concrete manager with positive reconnect
delay whose primary and fallback both disconnect. -/
theorem runFunction1_terminates_two_calls_witness :
    ∃ r, runFunction1 2 (⟨0, 1, true, "Execution client", 10⟩ : ClientManager Nat)
        ⟨true, true, none, none⟩ 0
        (fun c => if c = 0 then ((0 : Nat), some (⟨"connection reset", true⟩ : Err))
                  else (0, some (⟨"connection refused", true⟩ : Err))) = some r ∧
      callCount r.trace ≤ 2 :=
  runFunction1_terminates_two_calls _ _ 0 _ (by decide)
